import Mathlib

/-!
Shallow embedding of the orange-proxy core (src/orange-proxy/index.js):
per-connection state, the message handler (auth and admission control),
the drain loop (drainMessageQueue), connection teardown (closeConnection),
timer firings and the payment webhook waiter.

Modelling conventions:
* A raw websocket frame is modelled as its parsed JSON array: the field ty
  is element 0 of the array (the frame type string) and the field event is
  element 1 (the embedded Nostr event, meaningful for EVENT/AUTH frames).
  Frames in queues are assumed to be valid JSON arrays, as produced by
  conforming Nostr clients and relays; JSON.parse on them succeeds.
* JavaScript array push appends at the end and pop removes from the end,
  so queues are Lean lists in array order (index 0 first) and the drain
  loop processes the reverse of the list.
* One-shot timers and the process.once payment waiter are modelled as
  pending flags on the connection state; socket close calls are counted.
* External collaborators (getBalanceInSats, bot.askForCollateral,
  validateEvent, verifySignature, new URL) are oracle parameters.
-/

set_option autoImplicit false

namespace OrangeProxy

/-- A Nostr event object: the fields the proxy core reads. -/
structure NostrEvent where
  pubkey : String
  kind : Nat
  content : String
  id : String
  tags : List (List String)
  deriving Repr, DecidableEq

/-- A parsed protocol frame: ty is the JSON array head (EVENT, REQ, CLOSE,
AUTH, NOTICE, ...), event is the payload at index 1 when present. -/
structure Frame where
  ty : String
  event : NostrEvent
  deriving Repr, DecidableEq

/-- Configuration values read from ./config. -/
structure Config where
  collateralRequired : Nat
  filterNipKind : List Nat
  deriving Repr, DecidableEq

/-- Per-connection state: the clientObj fields (id, queues, timeout interval,
closed), the ws fields (authenticated, funded, authChallenge), socket
readyState observations, pending one-shot timers and the payment waiter, the
registry membership of clients[id], and counters of socket close calls. -/
structure Conn where
  id : Nat
  authChallenge : String
  authenticated : Bool
  funded : Bool
  closed : Bool
  queueUpstream : List Frame
  queueDownstream : List Frame
  drainTimerActive : Bool
  authTimerActive : Bool
  paymentTimerActive : Bool
  waiterActive : Bool
  inRegistry : Bool
  wsOpen : Bool
  relayOpen : Bool
  wsCloseCount : Nat
  relayCloseCount : Nat
  deriving Repr, DecidableEq

/-- closeConnection (index.js lines 218-240): returns immediately if closed;
otherwise clears the drain interval (clientObj.timeout), deletes the registry
entry, sets closed, and calls close() on both sockets inside try/catch blocks
(a throwing close is caught and logged, so the close call is still counted and
the function still completes). No other timer and no waiter is touched. -/
def closeConnection (c : Conn) : Conn :=
  if c.closed then c
  else
    { c with
      drainTimerActive := false
      inRegistry := false
      closed := true
      wsCloseCount := c.wsCloseCount + 1
      relayCloseCount := c.relayCloseCount + 1 }

/-- One asynchronous spam-classification invocation processSpam(pubkey,
content, id) fired from the drain loop. -/
structure SpamCall where
  pubkey : String
  content : String
  id : String
  deriving Repr, DecidableEq

/-- Result of one drainMessageQueue tick: the updated connection, the frames
sent to the relay in send order, the frames sent to the client in send order,
and the spam-classification calls fired. -/
structure DrainResult where
  conn : Conn
  sentToRelay : List Frame
  sentToClient : List Frame
  spamCalls : List SpamCall
  deriving Repr, DecidableEq

/-- The upstream while loop of drainMessageQueue (lines 250-276) acting on the
queue in pop order (input list head = first frame popped, i.e. the reverse of
the array). Returns (reAddUpstream in push order, frames sent in send order,
spam calls in fire order). Faithful to the source: a frame that is unfunded
and neither REQ nor CLOSE is pushed onto reAddUpstream, and relay.send(data)
then runs unconditionally on every popped frame. -/
def drainUpstreamAux (cfg : Config) (funded : Bool) :
    List Frame → List Frame × List Frame × List SpamCall
  | [] => ([], [], [])
  | data :: rest =>
    let deferred : Bool := !funded && data.ty != "REQ" && data.ty != "CLOSE"
    let spamHere : List SpamCall :=
      if funded && data.ty == "EVENT" && cfg.filterNipKind.contains data.event.kind then
        [⟨data.event.pubkey, data.event.content, data.event.id⟩]
      else []
    let r := drainUpstreamAux cfg funded rest
    ((if deferred then [data] else []) ++ r.1, data :: r.2.1, spamHere ++ r.2.2)

/-- drainMessageQueue (index.js lines 242-284). Returns without any effect if
the ws is not authenticated. Upstream phase runs only when the relay
readyState is OPEN: pops every queued client frame (most recent first), sends
each to the relay, re-queues the unfunded non-REQ/non-CLOSE ones, and fires
processSpam for funded EVENT frames of a filtered kind. Downstream phase runs
only when the client ws readyState is OPEN: pops and sends every buffered
relay frame to the client. -/
def drainMessageQueue (cfg : Config) (c : Conn) : DrainResult :=
  if !c.authenticated then ⟨c, [], [], []⟩
  else
    let up :=
      if c.relayOpen then
        let r := drainUpstreamAux cfg c.funded c.queueUpstream.reverse
        ({ c with queueUpstream := r.1 }, r.2.1, r.2.2)
      else (c, [], [])
    if !up.1.wsOpen then ⟨up.1, up.2.1, [], up.2.2⟩
    else ⟨{ up.1 with queueDownstream := [] }, up.2.1, up.1.queueDownstream.reverse, up.2.2⟩

/-- A host-bearing URL object, the part of the WHATWG URL the validator reads. -/
structure UrlModel where
  host : String
  deriving Repr, DecidableEq

/-- The external collaborators validateAuthEvent consults: validateEvent and
verifySignature from nostr-tools, the URL constructor (none models a throwing
new URL), and proxyUrl.host from the configuration. -/
structure ValidateCtx where
  validateEvent : NostrEvent → Bool
  verifySignature : NostrEvent → Bool
  parseUrl : String → Option UrlModel
  proxyHost : String

/-- A JavaScript exception raised inside the validateAuthEvent try block:
destructuring undefined (tags.find returned no tag) raises a TypeError, and
new URL on an unparseable string raises a TypeError as well. -/
inductive JsError where
  | destructureUndefined
  | invalidUrl
  deriving Repr, DecidableEq

/-- event.tags.find on a tag-name predicate: the first tag whose element 0 is
the given name. -/
def findTag (tags : List (List String)) (name : String) : Option (List String) :=
  tags.find? (fun t => t.head? == some name)

/-- Element 1 of a tag array; none models the undefined value JavaScript
yields when the tag is shorter. -/
def tagValue (t : List String) : Option String :=
  t.get? 1

/-- JavaScript truthiness of a possibly-undefined string: undefined and the
empty string are falsy. -/
def truthyStr : Option String → Bool
  | none => false
  | some s => s != ""

/-- The try block of validateAuthEvent (index.js lines 51-64), with the raised
exceptions made explicit. Checks in source order: validateEvent and
verifySignature; destructure the challenge tag (throws if absent) and compare
its value with ws.authChallenge; destructure the relay tag (throws if absent);
parse it as a URL (throws if unparseable); compare its host with
proxyUrl.host. -/
def validateAuthEventBody (ctx : ValidateCtx) (authChallenge : String)
    (event : NostrEvent) : Except JsError Bool :=
  if !(ctx.validateEvent event) || !(ctx.verifySignature event) then .ok false
  else
    match findTag event.tags "challenge" with
    | none => .error .destructureUndefined
    | some ctag =>
      if !(truthyStr (tagValue ctag)) || tagValue ctag != some authChallenge then .ok false
      else
        match findTag event.tags "relay" with
        | none => .error .destructureUndefined
        | some rtag =>
          match tagValue rtag with
          | none => .ok false
          | some rv =>
            if rv == "" then .ok false
            else
              match ctx.parseUrl rv with
              | none => .error .invalidUrl
              | some url =>
                if url.host != ctx.proxyHost then .ok false
                else .ok true

/-- validateAuthEvent (index.js lines 50-69): the try block above wrapped in
the catch-all handler that logs the exception and returns false. -/
def validateAuthEvent (ctx : ValidateCtx) (authChallenge : String)
    (event : NostrEvent) : Bool :=
  match validateAuthEventBody ctx authChallenge event with
  | .ok b => b
  | .error _ => false

/-- One incoming client websocket message, pre-parsed. isAuthShaped models
the guard data.includes of the AUTH literal together with JSON.parse(data)[0]
being AUTH; authEvent is msg[1] when it is an object (none models a
non-object); frame is the parsed frame as it would be queued upstream when the
message is not handled as an AUTH frame. -/
structure MsgData where
  isAuthShaped : Bool
  authEvent : Option NostrEvent
  frame : Frame
  deriving Repr

/-- Result of one run of the ws message handler: the updated connection, how
many getBalanceInSats calls were made, and whether bot.askForCollateral (the
payment-prompt DM) was dispatched. -/
structure HandlerResult where
  conn : Conn
  balanceCalls : Nat
  dmAttempted : Bool
  deriving Repr

/-- The ws message handler (index.js lines 119-189). If the connection is not
yet authenticated and the message is AUTH-shaped: a non-object or invalid
event closes the connection; an event whose pubkey is the bot public key sets
authenticated and funded with no balance lookup; otherwise authenticated is
set, the balance is fetched once and compared (JavaScript truthiness: a zero
balance fails the balance guard regardless of the collateral), a sufficient
nonzero balance sets funded; an insufficient one triggers the payment-prompt
DM, whose failure closes the connection and whose success starts the payment
timer and registers the process.once paid waiter. Every other message is
appended to queueUpstream. The balance and dmOk oracles stand for the awaited
getBalanceInSats and bot.askForCollateral results. -/
def handleClientMessage (cfg : Config) (botPubkey : String) (ctx : ValidateCtx)
    (balance : Nat) (dmOk : Bool) (msg : MsgData) (c : Conn) : HandlerResult :=
  if !c.authenticated && msg.isAuthShaped then
    match msg.authEvent with
    | none => ⟨closeConnection c, 0, false⟩
    | some event =>
      if !(validateAuthEvent ctx c.authChallenge event) then
        ⟨closeConnection c, 0, false⟩
      else if event.pubkey == botPubkey then
        ⟨{ c with authenticated := true, funded := true }, 0, false⟩
      else
        let c1 := { c with authenticated := true }
        if balance != 0 && balance ≥ cfg.collateralRequired then
          ⟨{ c1 with funded := true }, 1, false⟩
        else if !dmOk then
          ⟨closeConnection c1, 1, true⟩
        else
          ⟨{ c1 with paymentTimerActive := true, waiterActive := true }, 1, true⟩
  else
    ⟨{ c with queueUpstream := c.queueUpstream ++ [msg.frame] }, 0, false⟩

/-- The payment timer callback (index.js lines 167-177): the one-shot timer is
spent; if already funded it returns; otherwise it re-fetches the balance and
either sets funded (nonzero and sufficient) or closes the connection. -/
def paymentTimerFire (cfg : Config) (balance : Nat) (c : Conn) : Conn :=
  let c := { c with paymentTimerActive := false }
  if c.funded then c
  else if balance != 0 && balance ≥ cfg.collateralRequired then
    { c with funded := true }
  else closeConnection c

/-- The process.once paid waiter (index.js lines 179-183), triggered by the
payment webhook: if the one-shot waiter is still registered it is consumed,
funded is set and the payment timer is cleared; otherwise nothing happens. -/
def webhookPaidFire (c : Conn) : Conn :=
  if c.waiterActive then
    { c with funded := true, paymentTimerActive := false, waiterActive := false }
  else c

/-- The auth timeout callback (index.js lines 211-215): the one-shot timer is
spent; if authenticated it returns, otherwise it closes the connection. -/
def authTimerFire (c : Conn) : Conn :=
  let c := { c with authTimerActive := false }
  if c.authenticated then c else closeConnection c

/-- The relay message handler (index.js lines 95-97): append the frame to
queueDownstream. -/
def relayMessageArrive (f : Frame) (c : Conn) : Conn :=
  { c with queueDownstream := c.queueDownstream ++ [f] }

/-- Every operation of the core that mutates a live connection state: the ws
message handler, a drain tick, teardown (also reached from the relay and
client close handlers), the payment timer, the payment webhook waiter, the
auth timer, and a relay message arrival. -/
inductive Op where
  | message (cfg : Config) (botPubkey : String) (ctx : ValidateCtx)
      (balance : Nat) (dmOk : Bool) (msg : MsgData)
  | drain (cfg : Config)
  | close
  | paymentTimer (cfg : Config) (balance : Nat)
  | webhookPaid
  | authTimer
  | relayMessage (f : Frame)

/-- The connection-state effect of each operation. -/
def applyOp : Op → Conn → Conn
  | .message cfg botPubkey ctx balance dmOk msg, c =>
    (handleClientMessage cfg botPubkey ctx balance dmOk msg c).conn
  | .drain cfg, c => (drainMessageQueue cfg c).conn
  | .close, c => closeConnection c
  | .paymentTimer cfg balance, c => paymentTimerFire cfg balance c
  | .webhookPaid, c => webhookPaidFire c
  | .authTimer, c => authTimerFire c
  | .relayMessage f, c => relayMessageArrive f c

/-! ## Concrete fixtures -/

/-- A configuration with collateral 10 sats and kind 1 spam-filtered. -/
def cfg0 : Config := ⟨10, [1]⟩

/-- A configuration whose required collateral is zero. -/
def cfgZero : Config := ⟨0, [1]⟩

/-- A kind-1 Nostr event from a sample user. -/
def ev0 : NostrEvent := ⟨"userpk", 1, "hello", "eid0", []⟩

/-- An EVENT publication frame (neither REQ nor CLOSE). -/
def evFrame : Frame := ⟨"EVENT", ev0⟩

/-- A baseline live connection: authenticated, not funded, both sockets open,
empty queues. -/
def baseConn : Conn where
  id := 1
  authChallenge := "ch1"
  authenticated := true
  funded := false
  closed := false
  queueUpstream := []
  queueDownstream := []
  drainTimerActive := true
  authTimerActive := false
  paymentTimerActive := false
  waiterActive := false
  inRegistry := true
  wsOpen := true
  relayOpen := true
  wsCloseCount := 0
  relayCloseCount := 0

/-- A validation context in which signature checks pass and exactly the
proxy's canonical URL string parses to the proxy host. -/
def validCtx : ValidateCtx where
  validateEvent := fun _ => true
  verifySignature := fun _ => true
  parseUrl := fun s => if s == "wss://proxy.example" then some ⟨"proxy.example"⟩ else none
  proxyHost := "proxy.example"

/-- A well-formed auth event for challenge ch1 addressed to the proxy host,
from a non-operator user. -/
def authEv : NostrEvent :=
  ⟨"userpk", 1, "", "aid1", [["challenge", "ch1"], ["relay", "wss://proxy.example"]]⟩

/-- The same auth event sent from the operator (bot) identity. -/
def botAuthEv : NostrEvent :=
  ⟨"botpk", 1, "", "aid2", [["challenge", "ch1"], ["relay", "wss://proxy.example"]]⟩

/-- The AUTH-shaped client message carrying authEv. -/
def authMsg : MsgData := ⟨true, some authEv, ⟨"AUTH", authEv⟩⟩

/-- The AUTH-shaped client message carrying botAuthEv. -/
def botAuthMsg : MsgData := ⟨true, some botAuthEv, ⟨"AUTH", botAuthEv⟩⟩

/-! ## Helper lemmas -/

/-- closeConnection never changes the authenticated flag. -/
theorem closeConnection_authenticated (c : Conn) :
    (closeConnection c).authenticated = c.authenticated := by
  unfold closeConnection; split <;> rfl

/-- closeConnection never changes the funded flag. -/
theorem closeConnection_funded (c : Conn) :
    (closeConnection c).funded = c.funded := by
  unfold closeConnection; split <;> rfl

/-- The upstream drain loop sends every frame it pops, in pop order. -/
theorem drainUpstreamAux_sends_all (cfg : Config) (funded : Bool) (l : List Frame) :
    (drainUpstreamAux cfg funded l).2.1 = l := by
  induction l with
  | nil => rfl
  | cons d rest ih => simp [drainUpstreamAux, ih]

/-- A drain tick never changes the authenticated flag. -/
theorem drain_conn_authenticated (cfg : Config) (c : Conn) :
    (drainMessageQueue cfg c).conn.authenticated = c.authenticated := by
  unfold drainMessageQueue
  split
  · rfl
  · dsimp only; split <;> split <;> rfl

/-- A drain tick never changes the funded flag. -/
theorem drain_conn_funded (cfg : Config) (c : Conn) :
    (drainMessageQueue cfg c).conn.funded = c.funded := by
  unfold drainMessageQueue
  split
  · rfl
  · dsimp only; split <;> split <;> rfl

/-! ## Claim C1 -/

/-- The C1 scenario: an authenticated, unfunded connection with an open relay
link and one buffered EVENT publication frame. -/
def c1Conn : Conn := { baseConn with queueUpstream := [evFrame] }

/-- C1: the claim states that on an authenticated unfunded connection a drain
tick forwards no buffered client frame to the relay unless it is REQ or CLOSE.
The code violates this: relay.send(data) runs unconditionally on every popped
frame, so the EVENT frame is sent to the relay on the very tick that also
re-queues it as deferred. This theorem evaluates the code at the failing
input: the frame is both sent and still queued. -/
theorem c1_unfunded_event_frame_is_sent :
    c1Conn.authenticated = true ∧ c1Conn.funded = false ∧
    c1Conn.queueUpstream = [evFrame] ∧ evFrame.ty = "EVENT" ∧
    (drainMessageQueue cfg0 c1Conn).sentToRelay = [evFrame] ∧
    (drainMessageQueue cfg0 c1Conn).conn.queueUpstream = [evFrame] :=
  ⟨rfl, rfl, rfl, rfl, rfl, rfl⟩

/-! ## Claim C2 -/

/-- The C2 scenario: same shape as C1 — authenticated, unfunded, relay open,
one buffered EVENT frame. -/
def c2Conn : Conn := { baseConn with queueUpstream := [evFrame] }

/-- C2: the claim states that a buffered frame is sent to its destination at
most once while the connection is alive. The code violates this: an unfunded
non-REQ/non-CLOSE frame is sent to the relay and simultaneously re-queued, so
the next drain tick sends the very same queued frame to the relay again. -/
theorem c2_deferred_frame_sent_on_two_ticks :
    (drainMessageQueue cfg0 c2Conn).sentToRelay = [evFrame] ∧
    (drainMessageQueue cfg0 (drainMessageQueue cfg0 c2Conn).conn).sentToRelay
      = [evFrame] :=
  ⟨rfl, rfl⟩

/-! ## Claim C3 -/

/-- First-arrived downstream frame of the C3 scenario. -/
def frameA : Frame := ⟨"EVENT", { ev0 with id := "a" }⟩

/-- Second-arrived downstream frame of the C3 scenario. -/
def frameB : Frame := ⟨"EVENT", { ev0 with id := "b" }⟩

/-- The C3 scenario: an authenticated funded connection with two buffered
relay frames, frameA enqueued before frameB. -/
def c3Conn : Conn :=
  { baseConn with
    funded := true
    relayOpen := false
    queueDownstream := [frameA, frameB] }

/-- C3 counterexample: the claim states FIFO forwarding — frameA, enqueued
first, should be sent before frameB. The drain loop pops from the end of the
array, so the tick sends frameB first: the sent sequence is the reverse of
arrival order, refuting the claim at this concrete input. -/
theorem c3_fifo_counterexample :
    c3Conn.queueDownstream = [frameA, frameB] ∧ frameA ≠ frameB ∧
    (drainMessageQueue cfg0 c3Conn).sentToClient = [frameB, frameA] := by
  refine ⟨rfl, ?_, rfl⟩
  decide

/-- C3 amended: within each direction, a drain tick sends the buffered frames
in reverse arrival order (most recently enqueued first, stack-like), not FIFO:
the upstream batch sent to the relay is the reverse of queueUpstream and the
downstream batch sent to the client is the reverse of queueDownstream. -/
theorem c3_drain_order_is_lifo (cfg : Config) (c : Conn)
    (hauth : c.authenticated = true) :
    (c.relayOpen = true →
      (drainMessageQueue cfg c).sentToRelay = c.queueUpstream.reverse) ∧
    (c.wsOpen = true →
      (drainMessageQueue cfg c).sentToClient = c.queueDownstream.reverse) := by
  unfold drainMessageQueue
  simp only [hauth, Bool.not_true, Bool.false_eq_true, if_false]
  constructor
  · intro hrelay
    simp only [hrelay, if_true, drainUpstreamAux_sends_all]
    split <;> rfl
  · intro hws
    split
    · simp_all
    · split <;> simp_all

/-- C3 witness: the amended theorem applied to the concrete C3 scenario with
the client socket open, evaluated on both directions. -/
theorem c3_drain_order_witness :
    (drainMessageQueue cfg0 { c3Conn with relayOpen := true }).sentToRelay
      = ({ c3Conn with relayOpen := true } : Conn).queueUpstream.reverse ∧
    (drainMessageQueue cfg0 { c3Conn with relayOpen := true }).sentToClient
      = ({ c3Conn with relayOpen := true } : Conn).queueDownstream.reverse :=
  ⟨(c3_drain_order_is_lifo cfg0 { c3Conn with relayOpen := true } rfl).1 rfl,
   (c3_drain_order_is_lifo cfg0 { c3Conn with relayOpen := true } rfl).2 rfl⟩

/-! ## Claim C4 -/

/-- The C4 scenario: a live connection whose auth timer, payment timer and
payment waiter are all still pending when teardown runs. -/
def c4Conn : Conn :=
  { baseConn with
    authTimerActive := true
    paymentTimerActive := true
    waiterActive := true }

/-- C4 counterexample: the claim states that teardown cancels every timer
owned by the connection (drain, auth, payment) and retires any pending payment
waiter. closeConnection only clears the drain interval: after teardown of this
concrete live connection the auth timer, the payment timer and the paid waiter
are all still pending, so their callbacks can still fire. -/
theorem c4_stale_timers_counterexample :
    c4Conn.closed = false ∧
    (closeConnection c4Conn).closed = true ∧
    (closeConnection c4Conn).authTimerActive = true ∧
    (closeConnection c4Conn).paymentTimerActive = true ∧
    (closeConnection c4Conn).waiterActive = true :=
  ⟨rfl, rfl, rfl, rfl, rfl⟩

/-- C4 amended: teardown of a not-yet-closed connection cancels the drain
timer and removes the connection from the registry, but the auth timer, the
payment timer and the pubkey-keyed payment waiter are left pending — they are
not cancelled by teardown and may still fire afterwards (their callbacks
re-check connection state, and teardown itself is idempotent). -/
theorem c4_teardown_cancels_drain_timer_only (c : Conn) (h : c.closed = false) :
    (closeConnection c).drainTimerActive = false ∧
    (closeConnection c).inRegistry = false ∧
    (closeConnection c).closed = true ∧
    (closeConnection c).authTimerActive = c.authTimerActive ∧
    (closeConnection c).paymentTimerActive = c.paymentTimerActive ∧
    (closeConnection c).waiterActive = c.waiterActive := by
  simp [closeConnection, h]

/-- C4 witness: the amended theorem applied to the concrete C4 scenario. -/
theorem c4_teardown_witness :
    (closeConnection c4Conn).drainTimerActive = false ∧
    (closeConnection c4Conn).inRegistry = false ∧
    (closeConnection c4Conn).closed = true ∧
    (closeConnection c4Conn).authTimerActive = c4Conn.authTimerActive ∧
    (closeConnection c4Conn).paymentTimerActive = c4Conn.paymentTimerActive ∧
    (closeConnection c4Conn).waiterActive = c4Conn.waiterActive :=
  c4_teardown_cancels_drain_timer_only c4Conn rfl

/-! ## Claim C5 -/

/-- The C5 scenario: a connection that has not yet authenticated, with an open
client socket and one buffered relay frame. -/
def c5Conn : Conn :=
  { baseConn with
    authenticated := false
    queueDownstream := [evFrame] }

/-- C5 counterexample: the claim states that on a drain tick with the client
socket open, all buffered relay frames are forwarded to the client regardless
of the authenticated or funded state. The authenticated guard at the top of
drainMessageQueue covers the downstream phase too: on this unauthenticated
connection with an open client socket and a buffered relay frame, the tick
forwards nothing and the frame stays queued. -/
theorem c5_unauthenticated_counterexample :
    c5Conn.wsOpen = true ∧ c5Conn.authenticated = false ∧
    c5Conn.queueDownstream = [evFrame] ∧
    (drainMessageQueue cfg0 c5Conn).sentToClient = [] ∧
    (drainMessageQueue cfg0 c5Conn).conn.queueDownstream = [evFrame] :=
  ⟨rfl, rfl, rfl, rfl, rfl⟩

/-- C5 amended: on a drain tick for a live connection that is authenticated,
if the client socket is open then every buffered relay frame is forwarded to
the client (the funded flag is never consulted downstream) and the downstream
queue empties; if the client socket is not open, none is forwarded that tick
and the downstream queue is unchanged. -/
theorem c5_downstream_forwarding (cfg : Config) (c : Conn)
    (hauth : c.authenticated = true) :
    (c.wsOpen = true →
      (drainMessageQueue cfg c).sentToClient = c.queueDownstream.reverse ∧
      (drainMessageQueue cfg c).conn.queueDownstream = []) ∧
    (c.wsOpen = false →
      (drainMessageQueue cfg c).sentToClient = [] ∧
      (drainMessageQueue cfg c).conn.queueDownstream = c.queueDownstream) := by
  unfold drainMessageQueue
  simp only [hauth, Bool.not_true, Bool.false_eq_true, if_false]
  constructor
  · intro hws
    split <;> simp_all
  · intro hws
    split <;> simp_all

/-- C5 witness: the amended theorem applied to an authenticated connection
with one buffered relay frame and an open client socket. -/
theorem c5_downstream_witness :
    (drainMessageQueue cfg0 { c5Conn with authenticated := true }).sentToClient
      = ({ c5Conn with authenticated := true } : Conn).queueDownstream.reverse ∧
    (drainMessageQueue cfg0 { c5Conn with authenticated := true }).conn.queueDownstream
      = [] :=
  (c5_downstream_forwarding cfg0 { c5Conn with authenticated := true } rfl).1 rfl

/-! ## Claim C6 -/

/-- C6: teardown is idempotent. Invoking closeConnection twice on a live
connection equals invoking it once; across both invocations each socket
receives exactly one close call (the call is made inside try/catch, so it is
made — and counted — exactly once even when the socket close throws, and no
error propagates: closeConnection always returns a state); the registry entry
is removed exactly once, and every invocation after the first returns
immediately since the closed flag short-circuits. -/
theorem c6_teardown_idempotent (c : Conn) (h : c.closed = false) :
    closeConnection (closeConnection c) = closeConnection c ∧
    (closeConnection (closeConnection c)).wsCloseCount = c.wsCloseCount + 1 ∧
    (closeConnection (closeConnection c)).relayCloseCount = c.relayCloseCount + 1 ∧
    (closeConnection (closeConnection c)).inRegistry = false ∧
    (closeConnection (closeConnection c)).closed = true := by
  simp [closeConnection, h]

/-- C6 witness: idempotence evaluated on the concrete live base connection. -/
theorem c6_teardown_idempotent_witness :
    closeConnection (closeConnection baseConn) = closeConnection baseConn ∧
    (closeConnection (closeConnection baseConn)).wsCloseCount
      = baseConn.wsCloseCount + 1 ∧
    (closeConnection (closeConnection baseConn)).relayCloseCount
      = baseConn.relayCloseCount + 1 ∧
    (closeConnection (closeConnection baseConn)).inRegistry = false ∧
    (closeConnection (closeConnection baseConn)).closed = true :=
  c6_teardown_idempotent baseConn rfl

/-! ## Claim C7 -/

/-- The C7 scenario: a fresh unauthenticated connection receiving a valid
non-operator AUTH frame. -/
def c7Conn : Conn := { baseConn with authenticated := false }

/-- C7 counterexample: the claim states that whenever the balance returned at
authentication time is greater than or equal to the required collateral,
funded is set and the DM-dispatch path is never invoked. With a required
collateral of zero and a returned balance of zero, the balance satisfies
balance greater than or equal to collateral, yet the JavaScript truthiness
guard (balance and balance at least collateral) rejects the zero balance: the
connection is left unfunded and the payment-prompt DM path is invoked. -/
theorem c7_zero_balance_counterexample :
    cfgZero.collateralRequired ≤ 0 ∧
    (handleClientMessage cfgZero "botpk" validCtx 0 true authMsg c7Conn).conn.funded
      = false ∧
    (handleClientMessage cfgZero "botpk" validCtx 0 true authMsg c7Conn).dmAttempted
      = true ∧
    (handleClientMessage cfgZero "botpk" validCtx 0 true authMsg c7Conn).conn.paymentTimerActive
      = true :=
  ⟨Nat.le_refl 0, rfl, rfl, rfl⟩

/-- C7 amended: for a non-privileged connection, if the balance returned at
authentication time is nonzero and at least the required collateral, then
funded is set to true and the DM-dispatch path (payment-prompt DM, payment
timer, payment waiter) is never invoked for that connection; exactly one
balance lookup is made. -/
theorem c7_sufficient_balance_skips_dm (cfg : Config) (botPubkey : String)
    (ctx : ValidateCtx) (balance : Nat) (dmOk : Bool) (msg : MsgData) (c : Conn)
    (ev : NostrEvent)
    (hauth : c.authenticated = false) (hshape : msg.isAuthShaped = true)
    (hev : msg.authEvent = some ev)
    (hvalid : validateAuthEvent ctx c.authChallenge ev = true)
    (hpk : ev.pubkey ≠ botPubkey)
    (hnz : balance ≠ 0) (hge : cfg.collateralRequired ≤ balance) :
    (handleClientMessage cfg botPubkey ctx balance dmOk msg c).conn.funded = true ∧
    (handleClientMessage cfg botPubkey ctx balance dmOk msg c).conn.authenticated = true ∧
    (handleClientMessage cfg botPubkey ctx balance dmOk msg c).dmAttempted = false ∧
    (handleClientMessage cfg botPubkey ctx balance dmOk msg c).conn.paymentTimerActive
      = c.paymentTimerActive ∧
    (handleClientMessage cfg botPubkey ctx balance dmOk msg c).conn.waiterActive
      = c.waiterActive ∧
    (handleClientMessage cfg botPubkey ctx balance dmOk msg c).balanceCalls = 1 := by
  unfold handleClientMessage
  simp [hauth, hshape, hev, hvalid, hpk, hnz, hge]

/-- C7 witness: the amended theorem at the concrete scenario — collateral 10,
returned balance 50, valid non-operator auth event. -/
theorem c7_sufficient_balance_witness :
    (handleClientMessage cfg0 "botpk" validCtx 50 true authMsg c7Conn).conn.funded
      = true ∧
    (handleClientMessage cfg0 "botpk" validCtx 50 true authMsg c7Conn).conn.authenticated
      = true ∧
    (handleClientMessage cfg0 "botpk" validCtx 50 true authMsg c7Conn).dmAttempted
      = false ∧
    (handleClientMessage cfg0 "botpk" validCtx 50 true authMsg c7Conn).conn.paymentTimerActive
      = c7Conn.paymentTimerActive ∧
    (handleClientMessage cfg0 "botpk" validCtx 50 true authMsg c7Conn).conn.waiterActive
      = c7Conn.waiterActive ∧
    (handleClientMessage cfg0 "botpk" validCtx 50 true authMsg c7Conn).balanceCalls
      = 1 :=
  c7_sufficient_balance_skips_dm cfg0 "botpk" validCtx 50 true authMsg c7Conn authEv
    rfl rfl rfl (by decide) (by decide) (by decide) (by decide)

/-! ## Claim C8 -/

/-- The C8 scenario: a fresh unauthenticated connection receiving a valid AUTH
frame signed by the operator (bot) identity. -/
def c8Conn : Conn := { baseConn with authenticated := false }

/-- C8: a connection whose valid authentication event carries the operator's
own public key is marked authenticated and funded with zero balance-lookup
calls — admission control is skipped entirely (no DM, no payment timer, no
waiter). -/
theorem c8_operator_bypass (cfg : Config) (botPubkey : String)
    (ctx : ValidateCtx) (balance : Nat) (dmOk : Bool) (msg : MsgData) (c : Conn)
    (ev : NostrEvent)
    (hauth : c.authenticated = false) (hshape : msg.isAuthShaped = true)
    (hev : msg.authEvent = some ev)
    (hvalid : validateAuthEvent ctx c.authChallenge ev = true)
    (hpk : ev.pubkey = botPubkey) :
    (handleClientMessage cfg botPubkey ctx balance dmOk msg c).conn.authenticated
      = true ∧
    (handleClientMessage cfg botPubkey ctx balance dmOk msg c).conn.funded = true ∧
    (handleClientMessage cfg botPubkey ctx balance dmOk msg c).balanceCalls = 0 ∧
    (handleClientMessage cfg botPubkey ctx balance dmOk msg c).dmAttempted = false := by
  unfold handleClientMessage
  simp [hauth, hshape, hev, hvalid, hpk]

/-- C8 witness: the bypass theorem at the concrete scenario — the bot public
key botpk authenticating with a valid event. -/
theorem c8_operator_bypass_witness :
    (handleClientMessage cfg0 "botpk" validCtx 0 true botAuthMsg c8Conn).conn.authenticated
      = true ∧
    (handleClientMessage cfg0 "botpk" validCtx 0 true botAuthMsg c8Conn).conn.funded
      = true ∧
    (handleClientMessage cfg0 "botpk" validCtx 0 true botAuthMsg c8Conn).balanceCalls
      = 0 ∧
    (handleClientMessage cfg0 "botpk" validCtx 0 true botAuthMsg c8Conn).dmAttempted
      = false :=
  c8_operator_bypass cfg0 "botpk" validCtx 0 true botAuthMsg c8Conn botAuthEv
    rfl rfl rfl (by decide) rfl

/-! ## Claim C9 -/

/-- C9: the authenticated and funded flags are monotone. The source only ever
assigns true to ws.authenticated and ws.funded; no operation of the core — the
ws message handler, a drain tick, teardown, the payment timer callback, the
payment webhook waiter, the auth timer callback, or a relay message arrival —
ever resets either flag to false. -/
theorem c9_flags_monotone (op : Op) (c : Conn) :
    (c.authenticated = true → (applyOp op c).authenticated = true) ∧
    (c.funded = true → (applyOp op c).funded = true) := by
  cases op with
  | message cfg botPubkey ctx balance dmOk msg =>
    constructor <;> intro h
    · simp [applyOp, handleClientMessage, h]
    · simp only [applyOp, handleClientMessage]
      split
      · split <;> (try split) <;> (try split) <;> (try split) <;> (try split) <;>
          simp_all [closeConnection_funded]
      · simp [h]
  | drain cfg =>
    exact ⟨fun h => by rw [applyOp, drain_conn_authenticated]; exact h,
           fun h => by rw [applyOp, drain_conn_funded]; exact h⟩
  | close =>
    exact ⟨fun h => by rw [applyOp, closeConnection_authenticated]; exact h,
           fun h => by rw [applyOp, closeConnection_funded]; exact h⟩
  | paymentTimer cfg balance =>
    constructor <;> intro h <;>
      simp only [applyOp, paymentTimerFire] <;>
      split <;> (try split) <;>
      simp_all [closeConnection_authenticated, closeConnection_funded]
  | webhookPaid =>
    constructor <;> intro h <;> simp only [applyOp, webhookPaidFire] <;>
      split <;> simp_all
  | authTimer =>
    constructor <;> intro h <;> simp only [applyOp, authTimerFire] <;>
      split <;>
      simp_all [closeConnection_authenticated, closeConnection_funded]
  | relayMessage f =>
    exact ⟨fun h => h, fun h => h⟩

/-- C9 witness: monotonicity applied to the concrete operation authTimer on a
connection with both flags already true. -/
theorem c9_flags_monotone_witness :
    (applyOp Op.authTimer { baseConn with funded := true }).authenticated = true ∧
    (applyOp Op.authTimer { baseConn with funded := true }).funded = true :=
  ⟨(c9_flags_monotone Op.authTimer { baseConn with funded := true }).1 rfl,
   (c9_flags_monotone Op.authTimer { baseConn with funded := true }).2 rfl⟩

/-! ## Claim C10 -/

/-- C10: validateAuthEvent is total at its public interface. Its result is
always a plain boolean (never a propagated exception): whenever the try-block
body raises an exception — a missing challenge or relay tag that makes the
destructuring throw, or a relay tag that the URL constructor rejects — the
catch handler turns it into the result false; in particular an event carrying
no challenge tag always yields false. -/
theorem c10_validateAuthEvent_total (ctx : ValidateCtx) (ch : String)
    (ev : NostrEvent) :
    (validateAuthEvent ctx ch ev = true ∨ validateAuthEvent ctx ch ev = false) ∧
    (∀ e, validateAuthEventBody ctx ch ev = .error e →
      validateAuthEvent ctx ch ev = false) ∧
    (findTag ev.tags "challenge" = none → validateAuthEvent ctx ch ev = false) := by
  refine ⟨?_, ?_, ?_⟩
  · cases hb : validateAuthEvent ctx ch ev
    · exact Or.inr rfl
    · exact Or.inl rfl
  · intro e he
    unfold validateAuthEvent
    rw [he]
  · intro hnone
    have hbody : validateAuthEventBody ctx ch ev = .ok false ∨
        validateAuthEventBody ctx ch ev = .error .destructureUndefined := by
      unfold validateAuthEventBody
      rw [hnone]
      split
      · exact Or.inl rfl
      · exact Or.inr rfl
    cases hbody with
    | inl h => unfold validateAuthEvent; rw [h]
    | inr h => unfold validateAuthEvent; rw [h]

/-- A context for the C10 witness in which the signature checks pass but no
URL string parses. -/
def c10Ctx : ValidateCtx where
  validateEvent := fun _ => true
  verifySignature := fun _ => true
  parseUrl := fun _ => none
  proxyHost := "proxyhost"

/-- An event with no tags at all: tags.find returns undefined and the
destructuring in validateAuthEvent throws. -/
def c10Ev : NostrEvent := ⟨"pk", 1, "", "i0", []⟩

/-- C10 witness: at the concrete tagless event the body raises the
destructuring exception and validateAuthEvent returns false. -/
theorem c10_total_witness :
    validateAuthEventBody c10Ctx "chx" c10Ev = .error .destructureUndefined ∧
    validateAuthEvent c10Ctx "chx" c10Ev = false :=
  ⟨rfl,
   (c10_validateAuthEvent_total c10Ctx "chx" c10Ev).2.1 .destructureUndefined rfl⟩

end OrangeProxy
